import Mathlib

/-
Verification of the culvert command layer: a shallow embedding of the
argument-validation and command-dispatch logic in src/cmd (probe, read,
console, sfc, devmem, coprocessor) and the via-clause connection parser,
with theorems about range validation, error propagation and register-write
guards.

Conventions: C unsigned integers are modelled as Nat with explicit
reduction mod 2^32 (function u32) exactly where the C expression is
computed in uint32_t; values of C type unsigned long are modelled as plain
Nat (every sum appearing here is far below 2^64, and theorems carry the
range hypotheses that the C types guarantee).  Errno-style negative codes
are modelled as Int.  Calls into code outside this layer (host_init,
soc_probe, drivers) are modelled by oracle fields in an environment
structure recording their return codes, and the models additionally return
the trace of hardware-touching calls (siphon transfers, SCU register
writes, flash writes) that the command issued.
-/

/-- errno values used by the commands (errno.h). -/
def EPERM : Int := 1

/-- errno value for ENODEV (errno.h). -/
def ENODEV : Int := 19

/-- errno value for EACCES (errno.h). -/
def EACCES : Int := 13

/-- errno value for EINVAL (errno.h). -/
def EINVAL : Int := 22

/-- Process exit status for success (stdlib.h). -/
def EXIT_SUCCESS : Int := 0

/-- Process exit status for failure (stdlib.h). -/
def EXIT_FAILURE : Int := 1

/-- Largest 32-bit unsigned value, as in stdint.h. -/
def UINT32_MAX : Nat := 4294967295

/-- Reduction of a value into the 32-bit unsigned range, modelling C
arithmetic performed at type uint32_t. -/
def u32 (n : Nat) : Nat := n % 4294967296

/-- Wrapping 32-bit subtraction a - b at type uint32_t, for a b < 2^32. -/
def u32_sub (a b : Nat) : Nat := (a + 4294967296 - b % 4294967296) % 4294967296

theorem u32_lt (n : Nat) : u32 n < 4294967296 := Nat.mod_lt _ (by decide)

/-- struct connection_args from connection.h: five connection fields,
zero-initialised (pointers NULL, port 0) as in the commands. -/
structure connection_args where
  interface : Option String := none
  ip : Option String := none
  username : Option String := none
  password : Option String := none
  port : Int := 0
deriving Repr, DecidableEq

/-- Digit-accumulation loop of atoi: consume leading decimal digits. -/
def atoiLoop : List Char → Nat → Nat
  | [], acc => acc
  | c :: cs, acc =>
      if c.isDigit then atoiLoop cs (acc * 10 + (c.toNat - 48)) else acc

/-- Model of C atoi: skip leading spaces, optional sign, then digits. -/
def atoi (s : String) : Int :=
  let cs := s.toList.dropWhile (fun c => c = ' ')
  match cs with
  | '-' :: rest => -(atoiLoop rest 0 : Int)
  | '+' :: rest => (atoiLoop rest 0 : Int)
  | _ => (atoiLoop cs 0 : Int)

/-- parse_via from the argument helper: argi is the index of the word via
in argv, and the number of connection fields following it is
argc = argv.length - argi - 1.  The count must be exactly 1 (interface
only) or exactly 5 (interface, host, port, username, password); any other
count yields -EINVAL.  Field contents are stored without inspection. -/
def parse_via (argi : Nat) (argv : List String) (args : connection_args) :
    Except Int connection_args :=
  if argi ≥ argv.length then
    Except.error (-EINVAL)
  else if ((argv.length : Int) - argi - 1 ≠ 1) ∧ ((argv.length : Int) - argi - 1 ≠ 5) then
    Except.error (-EINVAL)
  else if (argv.length : Int) - argi - 1 = 1 then
    Except.ok { args with interface := some (argv.getD (argi + 1) "") }
  else
    Except.ok { args with
      interface := some (argv.getD (argi + 1) ""),
      ip := some (argv.getD (argi + 2) ""),
      port := atoi (argv.getD (argi + 3) ""),
      username := some (argv.getD (argi + 4) ""),
      password := some (argv.getD (argi + 5) "") }

/-- The ARGP_KEY_END validation of positional-argument count in the probe
command: argp_error fires when the count is greater than 1 and not 5. -/
def probe_arg_count_rejects (key_arg_count : Nat) : Bool :=
  decide (1 < key_arg_count) && decide (key_arg_count ≠ 5)

/-- C1: a positional via clause parses successfully exactly when the
number of connection fields after the word via is 1 or 5, and the probe
command rejects a positional field count n exactly when n is greater
than 1 and different from 5; so every nonzero count among 2, 3, 4 or
more than 5 is a validation error, raised before any negotiation. -/
theorem via_and_probe_field_counts (argi : Nat) (argv : List String)
    (args : connection_args) (n : Nat) :
    ((∃ r, parse_via argi argv args = Except.ok r) ↔
      ((argv.length : Int) - argi - 1 = 1 ∨ (argv.length : Int) - argi - 1 = 5))
    ∧ (probe_arg_count_rejects n = true ↔ (1 < n ∧ n ≠ 5)) := by
  constructor
  · unfold parse_via
    split_ifs with h1 h2 h3
    · exact iff_of_false (by rintro ⟨r, h⟩; exact h) (by omega)
    · exact iff_of_false (by rintro ⟨r, h⟩; exact h) (by omega)
    · exact iff_of_true ⟨_, rfl⟩ (by omega)
    · exact iff_of_true ⟨_, rfl⟩ (by omega)
  · simp [probe_arg_count_rejects]

/-- Concrete five-field via clause whose password field is blank. -/
def blank_password_argv : List String :=
  ["via", "lpc", "192.0.2.1", "2222", "root", ""]

/-- C4 counterexample: a 5-field connection parameter set whose password
field is blank is not rejected; parse_via accepts it and stores the empty
password, contradicting the claim that it fails before any network
operation. -/
theorem parse_via_accepts_blank_password :
    parse_via 0 blank_password_argv {} =
      Except.ok { interface := some "lpc", ip := some "192.0.2.1",
                  port := 2222, username := some "root", password := some "" } := by
  rfl

/-- C4 amended: parse_via validates only the field count.  Any 5-field
set is accepted with its fields stored verbatim, including a blank
password; any count other than 1 or 5 (in particular a 1-field set
followed by extra trailing fields, giving counts 2, 3, 4 or at least 6)
is rejected with -EINVAL before any network operation. -/
theorem parse_via_count_only_validation :
    (∀ (argi : Nat) (argv : List String) (args : connection_args),
      (argv.length : Int) - argi - 1 = 5 →
        parse_via argi argv args = Except.ok { args with
          interface := some (argv.getD (argi + 1) ""),
          ip := some (argv.getD (argi + 2) ""),
          port := atoi (argv.getD (argi + 3) ""),
          username := some (argv.getD (argi + 4) ""),
          password := some (argv.getD (argi + 5) "") })
    ∧ (∀ (argi : Nat) (argv : List String) (args : connection_args),
      (argv.length : Int) - argi - 1 ≠ 1 →
      (argv.length : Int) - argi - 1 ≠ 5 →
        parse_via argi argv args = Except.error (-EINVAL)) := by
  constructor
  · intro argi argv args h5
    unfold parse_via
    split_ifs with h1 h2 h3
    · exfalso; omega
    · exfalso; omega
    · exfalso; omega
    · rfl
  · intro argi argv args h1 h5
    unfold parse_via
    split_ifs with g1 g2
    · rfl
    · rfl
    · exfalso; omega

/-- C4 amended claim instantiated: a 1-field set with one extra trailing
field (count 2) is rejected with -EINVAL. -/
theorem parse_via_count_only_validation_witness :
    parse_via 0 ["via", "lpc", "junk"] {} = Except.error (-EINVAL) :=
  parse_via_count_only_validation.2 0 ["via", "lpc", "junk"] {}
    (by decide) (by decide)


/-- An address range on the SoC internal bus (struct soc_region): start
and length are uint32_t values. -/
structure soc_region where
  start : Nat
  length : Nat
deriving Repr, DecidableEq

/-- Environment for cmd_read_ram: return codes of the external steps the
command performs, in program order, and the DRAM and VRAM regions that
sdmc_get_dram and sdmc_get_vram report.  ahb_ok and sdmc_ok model the
NULL checks on host_get_ahb and sdmc_get. -/
structure ram_env where
  host_init_rc : Int
  ahb_ok : Bool
  soc_probe_rc : Int
  sdmc_ok : Bool
  get_dram_rc : Int
  dram : soc_region
  get_vram_rc : Int
  vram : soc_region
  siphon_rc : Int
deriving Repr, DecidableEq

/-- cmd_read_ram: returns the rc the function returns together with the
list of soc_siphon_out transfers issued (start, length).  The explicit
branch is guarded by start and length both being nonzero; its bounds
check compares against dram.start + dram.length computed at uint32_t as
in the C source; the fallback branch dumps from dram.start for
dram.length - vram.length bytes (uint32_t subtraction). -/
def cmd_read_ram (env : ram_env) (s l : Nat) : Int × List (Nat × Nat) :=
  if env.host_init_rc < 0 then (env.host_init_rc, [])
  else if env.ahb_ok = false then (-ENODEV, [])
  else if env.soc_probe_rc < 0 then (env.soc_probe_rc, [])
  else if env.sdmc_ok = false then (-ENODEV, [])
  else if env.get_dram_rc ≠ 0 then (env.get_dram_rc, [])
  else if s ≠ 0 ∧ l ≠ 0 then
    if s < env.dram.start ∨ s + l > u32 (env.dram.start + env.dram.length) then
      (-EINVAL, [])
    else
      (env.siphon_rc, [(s, l)])
  else if env.get_vram_rc ≠ 0 then (env.get_vram_rc, [])
  else (env.siphon_rc, [(env.dram.start, u32_sub env.dram.length env.vram.length)])

theorem cmd_read_ram_checks (env : ram_env) (s l : Nat)
    (hh : 0 ≤ env.host_init_rc) (ha : env.ahb_ok = true)
    (hp : 0 ≤ env.soc_probe_rc) (hs : env.sdmc_ok = true)
    (hd : env.get_dram_rc = 0) :
    cmd_read_ram env s l =
      if s ≠ 0 ∧ l ≠ 0 then
        (if s < env.dram.start ∨ s + l > u32 (env.dram.start + env.dram.length) then
          (-EINVAL, [])
        else (env.siphon_rc, [(s, l)]))
      else if env.get_vram_rc ≠ 0 then (env.get_vram_rc, [])
      else (env.siphon_rc, [(env.dram.start, u32_sub env.dram.length env.vram.length)]) := by
  unfold cmd_read_ram
  rw [ha, hs, hd]
  rw [if_neg (not_lt.mpr hh), if_neg (by simp), if_neg (not_lt.mpr hp),
      if_neg (by simp), if_neg (by simp)]

/-- DRAM region used by the spec example: 1 GiB at 0x80000000. -/
def spec_dram : soc_region := { start := 0x80000000, length := 0x40000000 }

/-- VRAM region used by the spec example: 32 MiB at 0xBE000000. -/
def spec_vram : soc_region := { start := 0xBE000000, length := 0x02000000 }

/-- Environment in which every external step of cmd_read_ram succeeds and
the probed regions are the spec example regions. -/
def ram_env_ok : ram_env :=
  { host_init_rc := 0, ahb_ok := true, soc_probe_rc := 0, sdmc_ok := true,
    get_dram_rc := 0, dram := spec_dram, get_vram_rc := 0, vram := spec_vram,
    siphon_rc := 0 }

/-- C2 counterexample: the explicit pair start = 0, length = 4096 is not
contained in DRAM (0 < dram.start), so by the claim it must be rejected
with -EINVAL and no transfer performed; instead cmd_read_ram ignores it,
dumps the default full-DRAM-minus-VRAM range and returns success. -/
theorem cmd_read_ram_zero_start_not_rejected :
    cmd_read_ram ram_env_ok 0 4096 = (0, [(0x80000000, 0x3E000000)])
    ∧ (0 : Nat) < spec_dram.start
    ∧ cmd_read_ram ram_env_ok 0 4096 ≠ (-EINVAL, []) := by
  refine ⟨by decide, by decide, by decide⟩

/-- C2 amended: on the success path of cmd_read_ram, if either supplied
value is zero (in particular when no pair was supplied, both being
zero-initialised) the dumped range is start = dram.start and
length = dram.length - vram.length; if both are nonzero, the pair is
rejected with -EINVAL and no transfer is performed unless
start >= dram.start and start + length <= dram.start + dram.length, in
which case exactly that range is dumped. -/
theorem cmd_read_ram_range_validation (env : ram_env) (s l : Nat)
    (hh : 0 ≤ env.host_init_rc) (ha : env.ahb_ok = true)
    (hp : 0 ≤ env.soc_probe_rc) (hs : env.sdmc_ok = true)
    (hd : env.get_dram_rc = 0) (hv : env.get_vram_rc = 0)
    (hr : env.dram.start + env.dram.length < 4294967296) :
    ((s = 0 ∨ l = 0) →
      cmd_read_ram env s l =
        (env.siphon_rc, [(env.dram.start, u32_sub env.dram.length env.vram.length)]))
    ∧ (s ≠ 0 → l ≠ 0 → env.dram.start ≤ s →
        s + l ≤ env.dram.start + env.dram.length →
      cmd_read_ram env s l = (env.siphon_rc, [(s, l)]))
    ∧ (s ≠ 0 → l ≠ 0 →
        (s < env.dram.start ∨ env.dram.start + env.dram.length < s + l) →
      cmd_read_ram env s l = (-EINVAL, [])) := by
  have hu : u32 (env.dram.start + env.dram.length) =
      env.dram.start + env.dram.length := Nat.mod_eq_of_lt hr
  have key := cmd_read_ram_checks env s l hh ha hp hs hd
  refine ⟨?_, ?_, ?_⟩
  · intro hz
    rw [key, if_neg (by tauto), if_neg (by rw [hv]; simp)]
  · intro hsz hlz hlo hhi
    rw [key, if_pos ⟨hsz, hlz⟩, if_neg (by rw [hu]; omega)]
  · intro hsz hlz hout
    rw [key, if_pos ⟨hsz, hlz⟩, if_pos (by rw [hu]; omega)]

/-- C2 amended claim instantiated: an in-DRAM explicit pair is dumped as
given, and an out-of-DRAM nonzero pair is rejected with -EINVAL. -/
theorem cmd_read_ram_range_validation_witness :
    cmd_read_ram ram_env_ok 0x80000000 0x1000 = (0, [(0x80000000, 0x1000)])
    ∧ cmd_read_ram ram_env_ok 0x7F000000 0x1000 = (-EINVAL, []) :=
  ⟨(cmd_read_ram_range_validation ram_env_ok 0x80000000 0x1000 (by decide)
      (by decide) (by decide) (by decide) (by decide) (by decide)
      (by decide)).2.1 (by decide) (by decide) (by decide) (by decide),
   (cmd_read_ram_range_validation ram_env_ok 0x7F000000 0x1000 (by decide)
      (by decide) (by decide) (by decide) (by decide) (by decide)
      (by decide)).2.2 (by decide) (by decide) (Or.inl (by decide))⟩

/-- C9: the explicit-range branch of cmd_read_ram is taken only when both
supplied values are nonzero: on the success path, if start or length is
zero the supplied values are ignored entirely (the result equals the
no-argument invocation), the default full-DRAM-minus-VRAM range is dumped,
and no -EINVAL validation failure is possible. -/
theorem cmd_read_ram_zero_value_fallback (env : ram_env) (s l : Nat)
    (hh : 0 ≤ env.host_init_rc) (ha : env.ahb_ok = true)
    (hp : 0 ≤ env.soc_probe_rc) (hs : env.sdmc_ok = true)
    (hd : env.get_dram_rc = 0) (hv : env.get_vram_rc = 0)
    (hz : s = 0 ∨ l = 0) :
    cmd_read_ram env s l = cmd_read_ram env 0 0
    ∧ cmd_read_ram env s l =
        (env.siphon_rc, [(env.dram.start, u32_sub env.dram.length env.vram.length)])
    ∧ (cmd_read_ram env s l).2 ≠ [] := by
  have key : cmd_read_ram env s l =
      (env.siphon_rc, [(env.dram.start, u32_sub env.dram.length env.vram.length)]) := by
    rw [cmd_read_ram_checks env s l hh ha hp hs hd, if_neg (by tauto),
        if_neg (by rw [hv]; simp)]
  have key0 : cmd_read_ram env 0 0 =
      (env.siphon_rc, [(env.dram.start, u32_sub env.dram.length env.vram.length)]) := by
    rw [cmd_read_ram_checks env 0 0 hh ha hp hs hd, if_neg (by tauto),
        if_neg (by rw [hv]; simp)]
  refine ⟨key.trans key0.symm, key, ?_⟩
  rw [key]
  simp

/-- C9 claim instantiated: supplying start 0 with nonzero length 4096
falls back to the default dump and ignores the supplied values. -/
theorem cmd_read_ram_zero_value_fallback_witness :
    cmd_read_ram ram_env_ok 0 4096 = cmd_read_ram ram_env_ok 0 0
    ∧ cmd_read_ram ram_env_ok 0 4096 =
        (ram_env_ok.siphon_rc, [(ram_env_ok.dram.start,
          u32_sub ram_env_ok.dram.length ram_env_ok.vram.length)])
    ∧ (cmd_read_ram ram_env_ok 0 4096).2 ≠ [] :=
  cmd_read_ram_zero_value_fallback ram_env_ok 0 4096 (by decide) (by decide)
    (by decide) (by decide) (by decide) (by decide) (Or.inl rfl)

/-- First nonzero value of a list of return codes, else 0: models a
straight-line sequence of calls where each is checked with if (rc) and
the function returns the rc of the first failing call, or the last rc
(0) when all succeed. -/
def first_nonzero : List Int → Int
  | [] => 0
  | r :: rs => if r ≠ 0 then r else first_nonzero rs

/-- Environment for cmd_console: return codes of its external steps in
program order.  clk_ok and mux_ok model the NULL checks on clk_get and
uart_mux_get; clk_enable_rc and mux_route_rc are checked with rc < 0 as
in the source; steps collects the return codes of the remaining sequence
(suart_init_defaults, suart_set_baud, the suart_flush calls,
uart_mux_restore, uart_mux_connect, suart_run), each checked if (rc). -/
structure console_env where
  host_init_rc : Int
  ahb_ok : Bool
  soc_probe_rc : Int
  clk_ok : Bool
  mux_ok : Bool
  clk_enable_rc : Int
  mux_route_rc : Int
  steps : List Int
deriving Repr, DecidableEq

/-- cmd_console: the rc the function returns (host_init failure calls
exit(EXIT_FAILURE), modelled as returning EXIT_FAILURE).  When clk_get or
uart_mux_get fails, the source jumps to cleanup without assigning rc, so
the function returns the rc left by the successful soc_probe. -/
def cmd_console (env : console_env) : Int :=
  if env.host_init_rc < 0 then EXIT_FAILURE
  else if env.ahb_ok = false then EXIT_FAILURE
  else if env.soc_probe_rc < 0 then env.soc_probe_rc
  else if env.clk_ok = false then env.soc_probe_rc
  else if env.mux_ok = false then env.soc_probe_rc
  else if env.clk_enable_rc < 0 then env.clk_enable_rc
  else if env.mux_route_rc < 0 then env.mux_route_rc
  else first_nonzero env.steps

/-- enum flash_op from the sfc command. -/
inductive flash_op
  | flash_op_read
  | flash_op_write
  | flash_op_erase
deriving Repr, DecidableEq

/-- The write-mode loop of cmd_sfc: reads is the list of successive
read(0, buf, 65536) return values (0 is end-of-file and ends the loop; a
negative value models the -errno of a failed read), fw i is the return
code of the i-th flash_write call, addr the current flash address and rc
the rc value on entry (left by flash_init).  Returns the final rc and the
list of flash_write calls issued as (address, byte count) pairs. -/
def sfc_write_loop (fw : Nat → Int) (addr : Nat) (rc : Int) (i : Nat) :
    List Int → Int × List (Nat × Nat)
  | [] => (rc, [])
  | r :: rest =>
    if r = 0 then (rc, [])
    else if r < 0 then (r, [])
    else if fw i < 0 then (fw i, [(addr, r.toNat)])
    else
      ((sfc_write_loop fw (addr + r.toNat) (fw i) (i + 1) rest).1,
        (addr, r.toNat) :: (sfc_write_loop fw (addr + r.toNat) (fw i) (i + 1) rest).2)

/-- Environment for cmd_sfc.  sfc_ok models the NULL check on
sfc_get_by_name; malloc_ok the NULL check on the transfer buffer;
stdout_write_rc is the -errno of a failed write to stdout in read mode
(nonnegative byte count otherwise); fw and reads drive the write loop. -/
structure sfc_env where
  host_init_rc : Int
  ahb_ok : Bool
  soc_probe_rc : Int
  sfc_ok : Bool
  flash_init_rc : Int
  malloc_ok : Bool
  flash_read_rc : Int
  stdout_write_rc : Int
  flash_erase_rc : Int
  fw : Nat → Int
  reads : List Int

/-- cmd_sfc: rc returned plus the list of flash_write calls issued.  The
write mode overwrites the parsed length argument with the fixed 64 KiB
window before entering the loop, so the length parameter is unused there.
When sfc_get_by_name fails, the source jumps to cleanup without assigning
rc, returning the rc left by the successful soc_probe. -/
def cmd_sfc (env : sfc_env) (op : flash_op) (address length : Nat) :
    Int × List (Nat × Nat) :=
  if env.host_init_rc < 0 then (EXIT_FAILURE, [])
  else if env.ahb_ok = false then (EXIT_FAILURE, [])
  else if env.soc_probe_rc < 0 then (env.soc_probe_rc, [])
  else if env.sfc_ok = false then (env.soc_probe_rc, [])
  else if env.flash_init_rc < 0 then (env.flash_init_rc, [])
  else
    match op with
    | flash_op.flash_op_read =>
        if env.malloc_ok = false then (env.flash_init_rc, [])
        else if env.stdout_write_rc < 0 then (env.stdout_write_rc, [])
        else (env.flash_read_rc, [])
    | flash_op.flash_op_write =>
        if env.malloc_ok = false then (env.flash_init_rc, [])
        else sfc_write_loop env.fw address env.flash_init_rc 0 env.reads
    | flash_op.flash_op_erase => (env.flash_erase_rc, [])

/-- Console environment where soc_probe succeeds and clk_get fails. -/
def console_env_clk_fail : console_env :=
  { host_init_rc := 0, ahb_ok := true, soc_probe_rc := 0, clk_ok := false,
    mux_ok := true, clk_enable_rc := 0, mux_route_rc := 0, steps := [] }

/-- Console environment where soc_probe succeeds and uart_mux_get fails. -/
def console_env_mux_fail : console_env :=
  { host_init_rc := 0, ahb_ok := true, soc_probe_rc := 0, clk_ok := true,
    mux_ok := false, clk_enable_rc := 0, mux_route_rc := 0, steps := [] }

/-- SFC environment where soc_probe succeeds and sfc_get_by_name fails. -/
def sfc_env_sfc_fail : sfc_env :=
  { host_init_rc := 0, ahb_ok := true, soc_probe_rc := 0, sfc_ok := false,
    flash_init_rc := 0, malloc_ok := true, flash_read_rc := 0,
    stdout_write_rc := 0, flash_erase_rc := 0, fw := fun _ => 0, reads := [] }

/-- C3: contrary to the claim, the failure paths for acquiring the clock
controller or the UART mux in cmd_console, and the flash controller in
cmd_sfc, return the rc left by the successful soc_probe, which is 0 - the
success code - because these paths jump to cleanup without assigning rc. -/
theorem acquisition_failure_returns_success_code :
    cmd_console console_env_clk_fail = EXIT_SUCCESS
    ∧ cmd_console console_env_mux_fail = EXIT_SUCCESS
    ∧ cmd_sfc sfc_env_sfc_fail flash_op.flash_op_read 0 4096 = (EXIT_SUCCESS, []) := by
  refine ⟨by decide, by decide, by decide⟩

theorem sfc_write_loop_first_addr (fw : Nat → Int) (reads : List Int)
    (addr : Nat) (rc : Int) (i : Nat) (a : Nat × Nat)
    (h : (sfc_write_loop fw addr rc i reads).2[0]? = some a) : a.1 = addr := by
  cases reads with
  | nil => simp [sfc_write_loop] at h
  | cons r rest =>
    unfold sfc_write_loop at h
    split_ifs at h with h1 h2 h3
    · simp at h
    · simp at h
    · simp [Prod.ext_iff] at h
      omega
    · simp [Prod.ext_iff] at h
      omega

theorem sfc_write_loop_window (fw : Nat → Int) (reads : List Int) :
    ∀ (addr : Nat) (rc : Int) (i : Nat),
      (∀ r ∈ reads, r ≤ 65536) →
      ∀ p ∈ (sfc_write_loop fw addr rc i reads).2, p.2 ≤ 65536 := by
  induction reads with
  | nil => intro addr rc i hb p hp; simp [sfc_write_loop] at hp
  | cons r rest ih =>
    intro addr rc i hb p hp
    unfold sfc_write_loop at hp
    split_ifs at hp with h1 h2 h3
    · simp at hp
    · simp at hp
    · simp [Prod.ext_iff] at hp
      have : r ≤ 65536 := hb r (by simp)
      omega
    · simp only [List.mem_cons] at hp
      rcases hp with hp | hp
      · rw [Prod.ext_iff] at hp
        have : r ≤ 65536 := hb r (by simp)
        omega
      · exact ih (addr + r.toNat) (fw i) (i + 1)
          (fun x hx => hb x (by simp [hx])) p hp

theorem sfc_write_loop_chain (fw : Nat → Int) (reads : List Int) :
    ∀ (addr : Nat) (rc : Int) (i j : Nat) (a b : Nat × Nat),
      (sfc_write_loop fw addr rc i reads).2[j]? = some a →
      (sfc_write_loop fw addr rc i reads).2[j + 1]? = some b →
      b.1 = a.1 + a.2 := by
  induction reads with
  | nil => intro addr rc i j a b ha hb; simp [sfc_write_loop] at ha
  | cons r rest ih =>
    intro addr rc i j a b ha hb
    unfold sfc_write_loop at ha hb
    split_ifs at ha hb with h1 h2 h3
    · simp at ha
    · simp at ha
    · cases j with
      | zero => simp at hb
      | succ k => simp at ha
    · cases j with
      | zero =>
        simp [Prod.ext_iff] at ha
        simp only [List.getElem?_cons_succ] at hb
        have hfst := sfc_write_loop_first_addr fw rest (addr + r.toNat) (fw i)
          (i + 1) b hb
        omega
      | succ k =>
        simp only [List.getElem?_cons_succ] at ha hb
        exact ih (addr + r.toNat) (fw i) (i + 1) k a b ha hb

theorem sfc_write_loop_stops (fw : Nat → Int) (xs : List Int) :
    ∀ (addr : Nat) (rc : Int) (i : Nat) (r : Int) (rest : List Int), r ≤ 0 →
      sfc_write_loop fw addr rc i (xs ++ r :: rest) =
        sfc_write_loop fw addr rc i (xs ++ [r]) := by
  induction xs with
  | nil =>
    intro addr rc i r rest hr
    simp only [List.nil_append]
    unfold sfc_write_loop
    rcases lt_or_eq_of_le hr with h | h
    · rw [if_neg (by omega), if_pos h, if_neg (by omega), if_pos h]
    · rw [if_pos h, if_pos h]
  | cons x xs ih =>
    intro addr rc i r rest hr
    simp only [List.cons_append]
    unfold sfc_write_loop
    split_ifs with h1 h2 h3
    · rfl
    · rfl
    · rfl
    · rw [ih (addr + x.toNat) (fw i) (i + 1) r rest hr]

/-- C10: the sfc write mode ignores the parsed length entirely (any two
length arguments give identical behaviour); the stream is consumed in
windows of at most 65536 bytes per flash_write; each flash_write's
address is the previous address advanced by exactly the bytes consumed;
the loop stops at end-of-file or a read failure without touching the rest
of the stream; and a failing flash_write ends the loop immediately with
only the writes so far (no rollback of bytes already written). -/
theorem cmd_sfc_write_stream_behaviour :
    (∀ (env : sfc_env) (addr l1 l2 : Nat),
      cmd_sfc env flash_op.flash_op_write addr l1 =
        cmd_sfc env flash_op.flash_op_write addr l2)
    ∧ (∀ (fw : Nat → Int) (addr : Nat) (rc : Int) (i : Nat) (reads : List Int),
        (∀ r ∈ reads, r ≤ 65536) →
        ∀ p ∈ (sfc_write_loop fw addr rc i reads).2, p.2 ≤ 65536)
    ∧ (∀ (fw : Nat → Int) (addr : Nat) (rc : Int) (i j : Nat) (reads : List Int)
        (a b : Nat × Nat),
        (sfc_write_loop fw addr rc i reads).2[j]? = some a →
        (sfc_write_loop fw addr rc i reads).2[j + 1]? = some b →
        b.1 = a.1 + a.2)
    ∧ (∀ (fw : Nat → Int) (addr : Nat) (rc : Int) (i : Nat) (xs : List Int)
        (r : Int) (rest : List Int), r ≤ 0 →
        sfc_write_loop fw addr rc i (xs ++ r :: rest) =
          sfc_write_loop fw addr rc i (xs ++ [r]))
    ∧ (∀ (fw : Nat → Int) (addr : Nat) (rc : Int) (i : Nat) (r : Int)
        (rest : List Int), 0 < r → fw i < 0 →
        sfc_write_loop fw addr rc i (r :: rest) = (fw i, [(addr, r.toNat)])) := by
  refine ⟨fun env addr l1 l2 => rfl,
          fun fw addr rc i reads hb => sfc_write_loop_window fw reads addr rc i hb,
          fun fw addr rc i j reads a b => sfc_write_loop_chain fw reads addr rc i j a b,
          fun fw addr rc i xs r rest hr => sfc_write_loop_stops fw xs addr rc i r rest hr,
          ?_⟩
  intro fw addr rc i r rest hr hw
  unfold sfc_write_loop
  rw [if_neg (by omega), if_neg (by omega), if_pos hw]

/-- flash_write oracle that always succeeds. -/
def fw_zero : Nat → Int := fun _ => 0

/-- flash_write oracle that always fails with -EIO. -/
def fw_fail : Nat → Int := fun _ => -5

/-- C10 claim instantiated on a concrete stream: window bound, address
chaining, stopping at a failed read, and stopping at a failed
flash_write. -/
theorem cmd_sfc_write_stream_behaviour_witness :
    ((0, 3) : Nat × Nat).2 ≤ 65536
    ∧ (((3, 2) : Nat × Nat).1 = ((0, 3) : Nat × Nat).1 + ((0, 3) : Nat × Nat).2)
    ∧ sfc_write_loop fw_zero 0 0 0 ([5] ++ (-2 : Int) :: [9]) =
        sfc_write_loop fw_zero 0 0 0 ([5] ++ [(-2 : Int)])
    ∧ sfc_write_loop fw_fail 0 0 0 ((4 : Int) :: [9]) = (-5, [(0, 4)]) :=
  ⟨cmd_sfc_write_stream_behaviour.2.1 fw_zero 0 0 0 [3, 2] (by decide)
      (0, 3) (by decide),
   cmd_sfc_write_stream_behaviour.2.2.1 fw_zero 0 0 0 0 [3, 2] (0, 3) (3, 2)
      (by decide) (by decide),
   cmd_sfc_write_stream_behaviour.2.2.2.1 fw_zero 0 0 0 [5] (-2) [9] (by decide),
   cmd_sfc_write_stream_behaviour.2.2.2.2 fw_fail 0 0 0 4 [9] (by decide) (by decide)⟩

/-- Chip generations recognised by soc_probe (enum in ast.h). -/
inductive soc_gen
  | ast_g4
  | ast_g5
  | ast_g6
deriving Repr, DecidableEq

/-- SCU coprocessor control register offsets and bit values from the
coprocessor command. -/
def SCU_COPROC_CTRL : Nat := 0xa00

/-- SCU register holding the coprocessor memory base address. -/
def SCU_COPROC_MEM_BASE : Nat := 0xa04

/-- SCU register holding the coprocessor instruction-memory limit. -/
def SCU_COPROC_IMEM_LIMIT : Nat := 0xa08

/-- SCU register holding the coprocessor data-memory limit. -/
def SCU_COPROC_DMEM_LIMIT : Nat := 0xa0c

/-- SCU register selecting the coprocessor cached range. -/
def SCU_COPROC_CACHE_RANGE : Nat := 0xa40

/-- SCU register enabling the coprocessor cache function. -/
def SCU_COPROC_CACHE_FUNC : Nat := 0xa48

/-- SCU_COPROC_CTRL_RESET_ASSERT, BIT(1). -/
def SCU_COPROC_CTRL_RESET_ASSERT : Nat := 2

/-- SCU_COPROC_CTRL_EN, BIT(0). -/
def SCU_COPROC_CTRL_EN : Nat := 1

/-- COPROC_CACHED_MEM_SIZE, 16 MiB. -/
def COPROC_CACHED_MEM_SIZE : Nat := 16777216

/-- Environment for cmd_coprocessor_run: scu_rc k is the return code of
the k-th scu_writel call (calls 0 to 8 in program order); usleep_ok
models the two usleep calls succeeding. -/
structure coproc_env where
  host_init_rc : Int
  ahb_ok : Bool
  soc_probe_rc : Int
  gen : soc_gen
  sdmc_ok : Bool
  get_dram_rc : Int
  dram : soc_region
  scu_ok : Bool
  scu_rc : Nat → Int
  siphon_in_rc : Int
  usleep_ok : Bool

/-- Result of a coprocessor command: final rc, the SCU register writes
issued as (register, value) pairs, and the siphon-in transfers issued as
(address, length) pairs. -/
structure coproc_result where
  rc : Int
  scu_writes : List (Nat × Nat)
  siphons : List (Nat × Nat)
deriving Repr, DecidableEq


/-- The SCU programming sequence of cmd_coprocessor_run, entered once
every validation guard has passed: writes 0 and 1 (control register) are
checked with rc < 0; the firmware load (soc_siphon_in) follows; writes 2
to 6 (MEM_BASE through CACHE_FUNC) are chained with logical-or in the
source, so each is issued only when the previous returned zero; then the
two usleep-separated control writes 7 and 8, checked with rc < 0. -/
def coproc_scu_sequence (env : coproc_env) (mem_base mem_size : Nat) :
    coproc_result :=
  if env.scu_rc 0 < 0 then ⟨EXIT_FAILURE, [(SCU_COPROC_CTRL, 0)], []⟩
  else if env.scu_rc 1 < 0 then
    ⟨EXIT_FAILURE, [(SCU_COPROC_CTRL, 0),
      (SCU_COPROC_CTRL, SCU_COPROC_CTRL_RESET_ASSERT)], []⟩
  else if env.siphon_in_rc < 0 then
    ⟨EXIT_FAILURE, [(SCU_COPROC_CTRL, 0),
      (SCU_COPROC_CTRL, SCU_COPROC_CTRL_RESET_ASSERT)],
      [(mem_base, mem_size)]⟩
  else if env.scu_rc 2 ≠ 0 then
    ⟨EXIT_FAILURE, [(SCU_COPROC_CTRL, 0),
      (SCU_COPROC_CTRL, SCU_COPROC_CTRL_RESET_ASSERT),
      (SCU_COPROC_MEM_BASE, u32 mem_base)],
      [(mem_base, mem_size)]⟩
  else if env.scu_rc 3 ≠ 0 then
    ⟨EXIT_FAILURE, [(SCU_COPROC_CTRL, 0),
      (SCU_COPROC_CTRL, SCU_COPROC_CTRL_RESET_ASSERT),
      (SCU_COPROC_MEM_BASE, u32 mem_base),
      (SCU_COPROC_IMEM_LIMIT, u32 (mem_base + COPROC_CACHED_MEM_SIZE))],
      [(mem_base, mem_size)]⟩
  else if env.scu_rc 4 ≠ 0 then
    ⟨EXIT_FAILURE, [(SCU_COPROC_CTRL, 0),
      (SCU_COPROC_CTRL, SCU_COPROC_CTRL_RESET_ASSERT),
      (SCU_COPROC_MEM_BASE, u32 mem_base),
      (SCU_COPROC_IMEM_LIMIT, u32 (mem_base + COPROC_CACHED_MEM_SIZE)),
      (SCU_COPROC_DMEM_LIMIT, u32 (mem_base + mem_size))],
      [(mem_base, mem_size)]⟩
  else if env.scu_rc 5 ≠ 0 then
    ⟨EXIT_FAILURE, [(SCU_COPROC_CTRL, 0),
      (SCU_COPROC_CTRL, SCU_COPROC_CTRL_RESET_ASSERT),
      (SCU_COPROC_MEM_BASE, u32 mem_base),
      (SCU_COPROC_IMEM_LIMIT, u32 (mem_base + COPROC_CACHED_MEM_SIZE)),
      (SCU_COPROC_DMEM_LIMIT, u32 (mem_base + mem_size)),
      (SCU_COPROC_CACHE_RANGE, 1)],
      [(mem_base, mem_size)]⟩
  else if env.scu_rc 6 ≠ 0 then
    ⟨EXIT_FAILURE, [(SCU_COPROC_CTRL, 0),
      (SCU_COPROC_CTRL, SCU_COPROC_CTRL_RESET_ASSERT),
      (SCU_COPROC_MEM_BASE, u32 mem_base),
      (SCU_COPROC_IMEM_LIMIT, u32 (mem_base + COPROC_CACHED_MEM_SIZE)),
      (SCU_COPROC_DMEM_LIMIT, u32 (mem_base + mem_size)),
      (SCU_COPROC_CACHE_RANGE, 1),
      (SCU_COPROC_CACHE_FUNC, 1)],
      [(mem_base, mem_size)]⟩
  else if env.usleep_ok = false then
    ⟨EXIT_FAILURE, [(SCU_COPROC_CTRL, 0),
      (SCU_COPROC_CTRL, SCU_COPROC_CTRL_RESET_ASSERT),
      (SCU_COPROC_MEM_BASE, u32 mem_base),
      (SCU_COPROC_IMEM_LIMIT, u32 (mem_base + COPROC_CACHED_MEM_SIZE)),
      (SCU_COPROC_DMEM_LIMIT, u32 (mem_base + mem_size)),
      (SCU_COPROC_CACHE_RANGE, 1),
      (SCU_COPROC_CACHE_FUNC, 1)],
      [(mem_base, mem_size)]⟩
  else if env.scu_rc 7 < 0 then
    ⟨EXIT_FAILURE, [(SCU_COPROC_CTRL, 0),
      (SCU_COPROC_CTRL, SCU_COPROC_CTRL_RESET_ASSERT),
      (SCU_COPROC_MEM_BASE, u32 mem_base),
      (SCU_COPROC_IMEM_LIMIT, u32 (mem_base + COPROC_CACHED_MEM_SIZE)),
      (SCU_COPROC_DMEM_LIMIT, u32 (mem_base + mem_size)),
      (SCU_COPROC_CACHE_RANGE, 1),
      (SCU_COPROC_CACHE_FUNC, 1),
      (SCU_COPROC_CTRL, 0)],
      [(mem_base, mem_size)]⟩
  else if env.scu_rc 8 < 0 then
    ⟨EXIT_FAILURE, [(SCU_COPROC_CTRL, 0),
      (SCU_COPROC_CTRL, SCU_COPROC_CTRL_RESET_ASSERT),
      (SCU_COPROC_MEM_BASE, u32 mem_base),
      (SCU_COPROC_IMEM_LIMIT, u32 (mem_base + COPROC_CACHED_MEM_SIZE)),
      (SCU_COPROC_DMEM_LIMIT, u32 (mem_base + mem_size)),
      (SCU_COPROC_CACHE_RANGE, 1),
      (SCU_COPROC_CACHE_FUNC, 1),
      (SCU_COPROC_CTRL, 0),
      (SCU_COPROC_CTRL, SCU_COPROC_CTRL_EN)],
      [(mem_base, mem_size)]⟩
  else
    ⟨EXIT_SUCCESS, [(SCU_COPROC_CTRL, 0),
      (SCU_COPROC_CTRL, SCU_COPROC_CTRL_RESET_ASSERT),
      (SCU_COPROC_MEM_BASE, u32 mem_base),
      (SCU_COPROC_IMEM_LIMIT, u32 (mem_base + COPROC_CACHED_MEM_SIZE)),
      (SCU_COPROC_DMEM_LIMIT, u32 (mem_base + mem_size)),
      (SCU_COPROC_CACHE_RANGE, 1),
      (SCU_COPROC_CACHE_FUNC, 1),
      (SCU_COPROC_CTRL, 0),
      (SCU_COPROC_CTRL, SCU_COPROC_CTRL_EN)],
      [(mem_base, mem_size)]⟩

/-- cmd_coprocessor_run: generation gate, 32-bit range checks and DRAM
containment check precede every SCU write.  The wrap check compares
(mem_base + mem_size) truncated to uint32_t against mem_base; the
containment check compares against dram.start + dram.length computed at
uint32_t.  Only when every guard passes does the SCU programming
sequence run. -/
def cmd_coprocessor_run (env : coproc_env) (mem_base mem_size : Nat) :
    coproc_result :=
  if env.host_init_rc < 0 then ⟨EXIT_FAILURE, [], []⟩
  else if env.ahb_ok = false then ⟨EXIT_FAILURE, [], []⟩
  else if env.soc_probe_rc < 0 then ⟨EXIT_FAILURE, [], []⟩
  else if env.gen ≠ soc_gen.ast_g6 then ⟨EXIT_FAILURE, [], []⟩
  else if env.sdmc_ok = false then ⟨EXIT_FAILURE, [], []⟩
  else if env.get_dram_rc ≠ 0 then ⟨EXIT_FAILURE, [], []⟩
  else if mem_base > UINT32_MAX then ⟨EXIT_FAILURE, [], []⟩
  else if u32 (mem_base + mem_size) < mem_base then ⟨EXIT_FAILURE, [], []⟩
  else if mem_base < env.dram.start
      ∨ mem_base + mem_size > u32 (env.dram.start + env.dram.length) then
    ⟨EXIT_FAILURE, [], []⟩
  else if env.scu_ok = false then ⟨EXIT_FAILURE, [], []⟩
  else coproc_scu_sequence env mem_base mem_size

/-- Environment for cmd_coprocessor_stop: scu_rc is the return code of
its single scu_writel call. -/
structure coproc_stop_env where
  host_init_rc : Int
  ahb_ok : Bool
  soc_probe_rc : Int
  gen : soc_gen
  scu_ok : Bool
  scu_rc : Int
deriving Repr, DecidableEq

/-- cmd_coprocessor_stop: rc returned plus the SCU writes issued.  On a
successful write the function returns the write's own return code. -/
def cmd_coprocessor_stop (env : coproc_stop_env) : Int × List (Nat × Nat) :=
  if env.host_init_rc < 0 then (EXIT_FAILURE, [])
  else if env.ahb_ok = false then (EXIT_FAILURE, [])
  else if env.soc_probe_rc < 0 then (EXIT_FAILURE, [])
  else if env.gen ≠ soc_gen.ast_g6 then (EXIT_FAILURE, [])
  else if env.scu_ok = false then (EXIT_FAILURE, [])
  else if env.scu_rc < 0 then (EXIT_FAILURE, [(SCU_COPROC_CTRL, 0)])
  else (env.scu_rc, [(SCU_COPROC_CTRL, 0)])

set_option maxHeartbeats 1000000 in
theorem coproc_run_rejected (env : coproc_env) (b s : Nat)
    (h : env.gen ≠ soc_gen.ast_g6 ∨ UINT32_MAX < b ∨ u32 (b + s) < b
      ∨ b < env.dram.start
      ∨ b + s > u32 (env.dram.start + env.dram.length)) :
    cmd_coprocessor_run env b s = ⟨EXIT_FAILURE, [], []⟩ := by
  unfold cmd_coprocessor_run
  split_ifs with g1 g2 g3 g4 g5 g6 g7 g8 g9 g10
  all_goals try rfl
  exfalso
  rcases h with h | h | h | h | h
  · exact g4 h
  · exact g7 h
  · exact g8 h
  · exact g9 (Or.inl h)
  · exact g9 (Or.inr h)

/-- C5: a coprocessor run or stop invocation issues an SCU register write
only if the probed generation is ast_g6, and run additionally only if the
supplied region does not wrap the 32-bit address space and lies entirely
inside the probed DRAM region. -/
theorem coproc_commands_gated (env : coproc_env) (senv : coproc_stop_env)
    (b s : Nat) (hdram : env.dram.start + env.dram.length < 4294967296) :
    ((cmd_coprocessor_run env b s).scu_writes ≠ [] →
      env.gen = soc_gen.ast_g6 ∧ b + s < 4294967296
      ∧ env.dram.start ≤ b ∧ b + s ≤ env.dram.start + env.dram.length)
    ∧ ((cmd_coprocessor_stop senv).2 ≠ [] → senv.gen = soc_gen.ast_g6) := by
  have hu : u32 (env.dram.start + env.dram.length) =
      env.dram.start + env.dram.length := Nat.mod_eq_of_lt hdram
  constructor
  · intro hw
    have hg : env.gen = soc_gen.ast_g6 := by
      by_contra hg
      exact hw (by rw [coproc_run_rejected env b s (Or.inl hg)])
    have h4 : ¬ b < env.dram.start := fun h =>
      hw (by rw [coproc_run_rejected env b s (Or.inr (Or.inr (Or.inr (Or.inl h))))])
    have h5 : ¬ b + s > u32 (env.dram.start + env.dram.length) := fun h =>
      hw (by rw [coproc_run_rejected env b s (Or.inr (Or.inr (Or.inr (Or.inr h))))])
    rw [hu] at h5
    exact ⟨hg, by omega, by omega, by omega⟩
  · intro hw
    unfold cmd_coprocessor_stop at hw
    split_ifs at hw with k1 k2 k3 k4 k5 k6
    · simp at hw
    · simp at hw
    · simp at hw
    · simp at hw
    · simp at hw
    · exact not_not.mp k4
    · exact not_not.mp k4

/-- Coprocessor run environment in which every external step succeeds on
an AST2600 with the spec example DRAM region. -/
def coproc_env_ok : coproc_env :=
  { host_init_rc := 0, ahb_ok := true, soc_probe_rc := 0,
    gen := soc_gen.ast_g6, sdmc_ok := true, get_dram_rc := 0,
    dram := spec_dram, scu_ok := true, scu_rc := fun _ => 0,
    siphon_in_rc := 0, usleep_ok := true }

/-- Coprocessor stop environment in which every external step succeeds on
an AST2600. -/
def coproc_stop_env_ok : coproc_stop_env :=
  { host_init_rc := 0, ahb_ok := true, soc_probe_rc := 0,
    gen := soc_gen.ast_g6, scu_ok := true, scu_rc := 0 }

/-- C5 claim instantiated: a run that writes the SCU registers has
generation ast_g6 and a non-wrapping, DRAM-contained region; a stop that
writes them has generation ast_g6. -/
theorem coproc_commands_gated_witness :
    (coproc_env_ok.gen = soc_gen.ast_g6
      ∧ (0x80000000 : Nat) + 0x2000000 < 4294967296
      ∧ coproc_env_ok.dram.start ≤ 0x80000000
      ∧ (0x80000000 : Nat) + 0x2000000 ≤
          coproc_env_ok.dram.start + coproc_env_ok.dram.length)
    ∧ coproc_stop_env_ok.gen = soc_gen.ast_g6 :=
  ⟨(coproc_commands_gated coproc_env_ok coproc_stop_env_ok 0x80000000 0x2000000
      (by decide)).1 (by decide),
   (coproc_commands_gated coproc_env_ok coproc_stop_env_ok 0x80000000 0x2000000
      (by decide)).2 (by decide)⟩

/-- struct cmd_read_ram_args: start and length, zero-initialised. -/
structure cmd_read_ram_args where
  start : Nat := 0
  length : Nat := 0
deriving Repr, DecidableEq

/-- The zero-initialised cmd_read_ram_args value ({0} in the source). -/
def ram_args_init : cmd_read_ram_args := {}

/-- The -S option handler of the read ram command: the parsed value is
rejected when it exceeds the 32-bit address space. -/
def parse_opt_ram_S (v : Nat) (a : cmd_read_ram_args) :
    Except Unit cmd_read_ram_args :=
  if UINT32_MAX < v then Except.error () else Except.ok { a with start := v }

/-- The -L option handler of the read ram command: the parsed value is
rejected when it exceeds the 32-bit address space. -/
def parse_opt_ram_L (v : Nat) (a : cmd_read_ram_args) :
    Except Unit cmd_read_ram_args :=
  if UINT32_MAX < v then Except.error () else Except.ok { a with length := v }

/-- The ARGP_KEY_END check of the read ram command: argp_error fires when
UINT32_MAX - length < start, i.e. when start + length would wrap the
32-bit address space. -/
def parse_opt_ram_end (a : cmd_read_ram_args) :
    Except Unit cmd_read_ram_args :=
  if UINT32_MAX - a.length < a.start then Except.error () else Except.ok a

/-- One parse run of the read ram command options: the optional -S and -L
values are processed by their handlers, then the ARGP_KEY_END check
runs. -/
def ram_cli_parse (sv lv : Option Nat) : Except Unit cmd_read_ram_args :=
  match (match sv with
         | none => Except.ok ram_args_init
         | some v => parse_opt_ram_S v ram_args_init) with
  | Except.error e => Except.error e
  | Except.ok a1 =>
    match (match lv with
           | none => Except.ok a1
           | some v => parse_opt_ram_L v a1) with
    | Except.error e => Except.error e
    | Except.ok a2 => parse_opt_ram_end a2

/-- C6: every start/length pair accepted at the command boundary has
start + length within the 32-bit address space: a read ram option parse
that succeeds yields start + length at most UINT32_MAX, and a coprocessor
run invocation whose pair sums beyond UINT32_MAX fails and issues no SCU
write and no bus transfer. -/
theorem accepted_pairs_no_32bit_wrap :
    (∀ (sv lv : Option Nat) (a : cmd_read_ram_args),
        ram_cli_parse sv lv = Except.ok a → a.start + a.length ≤ UINT32_MAX)
    ∧ (∀ (env : coproc_env) (b s : Nat), UINT32_MAX < b + s →
        (cmd_coprocessor_run env b s).rc ≠ EXIT_SUCCESS
        ∧ (cmd_coprocessor_run env b s).scu_writes = []
        ∧ (cmd_coprocessor_run env b s).siphons = []) := by
  constructor
  · intro sv lv a hok
    cases sv with
    | none =>
      cases lv with
      | none =>
        by_cases h3 : UINT32_MAX - ram_args_init.length < ram_args_init.start
        · simp [ram_cli_parse, parse_opt_ram_end, h3] at hok
        · simp [ram_cli_parse, parse_opt_ram_end, h3] at hok
          subst hok
          simp [ram_args_init, UINT32_MAX]
      | some w =>
        by_cases h2 : UINT32_MAX < w
        · simp [ram_cli_parse, parse_opt_ram_L, h2] at hok
        · by_cases h3 : UINT32_MAX - w < ram_args_init.start
          · simp [ram_cli_parse, parse_opt_ram_L, parse_opt_ram_end, h2, h3] at hok
          · simp [ram_cli_parse, parse_opt_ram_L, parse_opt_ram_end, h2, h3] at hok
            subst hok
            simp only [ram_args_init] at h3 ⊢
            simp only [UINT32_MAX] at h2 h3 ⊢
            try simp
            omega
    | some v =>
      by_cases h1 : UINT32_MAX < v
      · simp [ram_cli_parse, parse_opt_ram_S, h1] at hok
      · cases lv with
        | none =>
          by_cases h3 : UINT32_MAX - ram_args_init.length < v
          · simp [ram_cli_parse, parse_opt_ram_S, parse_opt_ram_end, h1, h3] at hok
          · simp [ram_cli_parse, parse_opt_ram_S, parse_opt_ram_end, h1, h3] at hok
            subst hok
            simp only [ram_args_init] at h3 ⊢
            simp only [UINT32_MAX] at h1 h3 ⊢
            try simp
            omega
        | some w =>
          by_cases h2 : UINT32_MAX < w
          · simp [ram_cli_parse, parse_opt_ram_S, parse_opt_ram_L, h1, h2] at hok
          · by_cases h3 : UINT32_MAX - w < v
            · simp [ram_cli_parse, parse_opt_ram_S, parse_opt_ram_L,
                parse_opt_ram_end, h1, h2, h3] at hok
            · simp [ram_cli_parse, parse_opt_ram_S, parse_opt_ram_L,
                parse_opt_ram_end, h1, h2, h3] at hok
              subst hok
              simp only [UINT32_MAX] at h1 h2 h3 ⊢
              try simp
              omega
  · intro env b s hbs
    rcases le_or_lt b UINT32_MAX with hble | hbgt
    · rcases lt_or_le (u32 (b + s)) b with hw | hnw
      · rw [coproc_run_rejected env b s (Or.inr (Or.inr (Or.inl hw)))]
        exact ⟨by decide, rfl, rfl⟩
      · have hcont : b + s > u32 (env.dram.start + env.dram.length) := by
          have hb := u32_lt (env.dram.start + env.dram.length)
          simp only [UINT32_MAX] at hbs
          omega
        rw [coproc_run_rejected env b s (Or.inr (Or.inr (Or.inr (Or.inr hcont))))]
        exact ⟨by decide, rfl, rfl⟩
    · rw [coproc_run_rejected env b s (Or.inr (Or.inl hbgt))]
      exact ⟨by decide, rfl, rfl⟩

/-- C6 claim instantiated: an accepted parse of -S 5 -L 10 sums within
the address space, and a coprocessor run at base UINT32_MAX with size 1
fails without touching the SCU or the bus. -/
theorem accepted_pairs_no_32bit_wrap_witness :
    ((5 : Nat) + 10 ≤ UINT32_MAX)
    ∧ ((cmd_coprocessor_run coproc_env_ok UINT32_MAX 1).rc ≠ EXIT_SUCCESS
       ∧ (cmd_coprocessor_run coproc_env_ok UINT32_MAX 1).scu_writes = []
       ∧ (cmd_coprocessor_run coproc_env_ok UINT32_MAX 1).siphons = []) :=
  ⟨accepted_pairs_no_32bit_wrap.1 (some 5) (some 10) { start := 5, length := 10 }
      (by rfl),
   accepted_pairs_no_32bit_wrap.2 coproc_env_ok UINT32_MAX 1 (by decide)⟩

/-- A bridge driver registry entry: name and enabled flag. -/
structure bridge_driver where
  name : String
  enabled : Bool
deriving Repr, DecidableEq

/-- Modelled from the spec: the bridge driver registry and
disable_bridge_driver are not part of the provided sources (only the call
site in the main option parser is).  Per the registry contract, the
registry is a fixed, compiled-in, ordered driver list and
disable(name) fails with UnknownDriver if name is not present, otherwise
it clears the named driver's enabled flag.  The C call site treats a
nonzero return as failure, modelled here as none. -/
def disable_bridge_driver (reg : List bridge_driver) (n : String) :
    Option (List bridge_driver) :=
  if (reg.map bridge_driver.name).contains n then
    some (reg.map (fun d => if d.name = n then { d with enabled := false } else d))
  else none

/-- Events processed by the main option parser, in command-line order:
-q, -v, -s NAME, -l, and the ARGP_KEY_ARGS event dispatching a recognised
command (carrying the rc that command returns). -/
inductive main_event
  | quiet
  | verbose
  | skip (n : String)
  | list_bridges
  | dispatch (cmd_rc : Int)
deriving Repr, DecidableEq

/-- Outcome of a run of the main option parser: the process exit status
and whether a command (and hence bridge negotiation) was dispatched. -/
structure main_outcome where
  exit_code : Int
  negotiated : Bool
deriving Repr, DecidableEq

/-- The main option parser loop (parse_opt in the entry point): options
are processed in order (ARGP_IN_ORDER); -s with an unrecognised name
prints an error and exits EXIT_FAILURE; -l lists drivers and exits
EXIT_SUCCESS; the first positional argument dispatches the command and
the process exits by the command's rc; an empty run exits
EXIT_FAILURE. -/
def main_loop (reg : List bridge_driver) : List main_event → main_outcome
  | [] => { exit_code := EXIT_FAILURE, negotiated := false }
  | main_event.quiet :: rest => main_loop reg rest
  | main_event.verbose :: rest => main_loop reg rest
  | main_event.skip n :: rest =>
      match disable_bridge_driver reg n with
      | some reg2 => main_loop reg2 rest
      | none => { exit_code := EXIT_FAILURE, negotiated := false }
  | main_event.list_bridges :: _ => { exit_code := EXIT_SUCCESS, negotiated := false }
  | main_event.dispatch rc :: _ =>
      { exit_code := if rc ≠ 0 then EXIT_FAILURE else EXIT_SUCCESS,
        negotiated := true }

/-- An event the main parser passes through without exiting: -q, -v, or a
-s naming a driver present in the registry. -/
def main_step_benign (reg : List bridge_driver) : main_event → Bool
  | main_event.quiet => true
  | main_event.verbose => true
  | main_event.skip m => (reg.map bridge_driver.name).contains m
  | main_event.list_bridges => false
  | main_event.dispatch _ => false

theorem disable_map_names (reg : List bridge_driver) (m : String) :
    (reg.map (fun d => if d.name = m then { d with enabled := false } else d)).map
      bridge_driver.name = reg.map bridge_driver.name := by
  induction reg with
  | nil => rfl
  | cons d rest ih =>
    simp only [List.map_cons]
    rw [ih]
    congr 1
    by_cases hd : d.name = m <;> simp [hd]

/-- C7: if the registry does not contain driver name n, then a run whose
options pass through quiet/verbose flags and skips of known drivers and
then request to skip n exits with EXIT_FAILURE and dispatches no command,
so no negotiation is attempted in that run. -/
theorem skip_unknown_bridge_fails_before_negotiation
    (reg : List bridge_driver) (pre : List main_event) (n : String)
    (post : List main_event)
    (hn : (reg.map bridge_driver.name).contains n = false)
    (hpre : ∀ e ∈ pre, main_step_benign reg e = true) :
    main_loop reg (pre ++ main_event.skip n :: post) =
      { exit_code := EXIT_FAILURE, negotiated := false } := by
  induction pre generalizing reg with
  | nil =>
    simp only [List.nil_append]
    unfold main_loop disable_bridge_driver
    rw [hn]
    simp
  | cons e pre ih =>
    cases e with
    | quiet =>
      simp only [List.cons_append]
      unfold main_loop
      exact ih reg hn (fun x hx => hpre x (by simp [hx]))
    | verbose =>
      simp only [List.cons_append]
      unfold main_loop
      exact ih reg hn (fun x hx => hpre x (by simp [hx]))
    | skip m =>
      have hm : (reg.map bridge_driver.name).contains m = true := by
        have hb := hpre (main_event.skip m) (by simp)
        simpa [main_step_benign] using hb
      simp only [List.cons_append]
      unfold main_loop disable_bridge_driver
      rw [hm]
      simp only []
      refine ih (reg.map (fun d => if d.name = m then { d with enabled := false } else d))
        ?_ ?_
      · rw [disable_map_names]
        exact hn
      · intro x hx
        have hb := hpre x (by simp [hx])
        cases x with
        | quiet => rfl
        | verbose => rfl
        | skip k =>
          simp only [main_step_benign, disable_map_names]
          simpa [main_step_benign] using hb
        | list_bridges => simpa [main_step_benign] using hb
        | dispatch rc => simpa [main_step_benign] using hb
    | list_bridges =>
      have hb := hpre main_event.list_bridges (by simp)
      simp [main_step_benign] at hb
    | dispatch rc =>
      have hb := hpre (main_event.dispatch rc) (by simp)
      simp [main_step_benign] at hb

/-- Concrete registry with two drivers for the witness. -/
def bridge_reg_w : List bridge_driver :=
  [{ name := "devmem", enabled := true }, { name := "jtag", enabled := true }]

/-- C7 claim instantiated: skipping a known driver then an unknown name
exits EXIT_FAILURE without dispatching the pending command. -/
theorem skip_unknown_bridge_fails_before_negotiation_witness :
    main_loop bridge_reg_w
      ([main_event.skip "jtag", main_event.verbose]
        ++ main_event.skip "xdma2" :: [main_event.dispatch 0]) =
      { exit_code := EXIT_FAILURE, negotiated := false } :=
  skip_unknown_bridge_fails_before_negotiation bridge_reg_w
    [main_event.skip "jtag", main_event.verbose] "xdma2"
    [main_event.dispatch 0] (by decide) (by decide)

/-- The two kinds of message cmd_devmem prints when devmem_init fails:
the privilege-escalation hint (priv_print_unprivileged) or the generic
perror message. -/
inductive devmem_msg
  | priv_hint
  | errno_msg
deriving Repr, DecidableEq

/-- Environment for cmd_devmem: the devmem_init return code, whether the
process runs as root (priv_am_root), and the return codes of
ast_ahb_access and devmem_destroy. -/
structure devmem_env where
  init_rc : Int
  am_root : Bool
  access_rc : Int
  destroy_rc : Int
deriving Repr, DecidableEq

/-- Outcome of cmd_devmem: process exit status (each failure branch calls
exit(EXIT_FAILURE)) and the message printed, if any. -/
structure devmem_outcome where
  exit_code : Int
  msg : Option devmem_msg
deriving Repr, DecidableEq

/-- cmd_devmem: when devmem_init fails, denied is (rc == -EACCES or
rc == -EPERM); the privilege hint is printed exactly when denied holds
and the process is not root, otherwise perror; either way the process
exits EXIT_FAILURE.  Afterwards ast_ahb_access and devmem_destroy
failures exit EXIT_FAILURE with a perror message. -/
def cmd_devmem (env : devmem_env) : devmem_outcome :=
  if env.init_rc < 0 then
    if (env.init_rc = -EACCES ∨ env.init_rc = -EPERM) ∧ env.am_root = false then
      { exit_code := EXIT_FAILURE, msg := some devmem_msg.priv_hint }
    else
      { exit_code := EXIT_FAILURE, msg := some devmem_msg.errno_msg }
  else if env.access_rc ≠ 0 then
    { exit_code := EXIT_FAILURE, msg := some devmem_msg.errno_msg }
  else if env.destroy_rc ≠ 0 then
    { exit_code := EXIT_FAILURE, msg := some devmem_msg.errno_msg }
  else { exit_code := EXIT_SUCCESS, msg := none }

/-- C8: when devmem_init fails, cmd_devmem exits EXIT_FAILURE, and the
privilege-escalation hint is printed if and only if the failure code is
-EACCES or -EPERM and the process is not running as root; in every other
failure sub-case the generic message is printed instead, with the same
exit status. -/
theorem devmem_privilege_hint (env : devmem_env) (h : env.init_rc < 0) :
    (cmd_devmem env).exit_code = EXIT_FAILURE
    ∧ ((cmd_devmem env).msg = some devmem_msg.priv_hint ↔
        ((env.init_rc = -EACCES ∨ env.init_rc = -EPERM)
          ∧ env.am_root = false)) := by
  unfold cmd_devmem
  rw [if_pos h]
  split_ifs with hd
  · exact ⟨rfl, iff_of_true rfl hd⟩
  · exact ⟨rfl, iff_of_false (by simp) hd⟩

/-- devmem_init failing with -EACCES for a non-root process. -/
def devmem_env_denied : devmem_env :=
  { init_rc := -EACCES, am_root := false, access_rc := 0, destroy_rc := 0 }

/-- C8 claim instantiated: a non-root -EACCES failure exits EXIT_FAILURE
and prints the privilege hint. -/
theorem devmem_privilege_hint_witness :
    (cmd_devmem devmem_env_denied).exit_code = EXIT_FAILURE
    ∧ ((cmd_devmem devmem_env_denied).msg = some devmem_msg.priv_hint ↔
        ((devmem_env_denied.init_rc = -EACCES
            ∨ devmem_env_denied.init_rc = -EPERM)
          ∧ devmem_env_denied.am_root = false)) :=
  devmem_privilege_hint devmem_env_denied (by decide)
